import Mathlib

/-!
Verification of the DocVerify frontend (document-forgery detection client).

The JavaScript source is shallowly embedded: each embedded definition mirrors
one function of the frontend script (validateFile, generateMockResults,
updateConfidenceDisplay, updateHeatmap, drawSampleRegions, handleHeatmapClick,
processFile, processDocument, displayResults, generateForensicReport).
JS numbers appearing in coordinates and scale factors are modelled as
rationals; confidence and size values, which the code only ever compares with
integer thresholds, are modelled as naturals.
-/

namespace DocVerify

/-- Finding as produced by a signal analyzer: an optional pixel region
of the form (x, y, width, height), a confidence value and a description. -/
structure Finding where
  region : Option (ℚ × ℚ × ℚ × ℚ)
  confidence : Nat
  description : String
deriving DecidableEq, Repr

/-- Per-signal result: confidence, findings and a textual summary. -/
structure SignalResult where
  confidence : Nat
  findings : List Finding
  summary : String
deriving DecidableEq, Repr

/-- The three signals of the pipeline: ELA, OCR and metadata. -/
structure Signals where
  ela : SignalResult
  ocr : SignalResult
  metadata : SignalResult
deriving DecidableEq, Repr

/-- Aggregate detection results, mirroring the fields of the object built by
the generateMockResults function of the script. -/
structure Results where
  document_id : String
  confidence : Nat
  uncertainty : Nat
  processing_time : ℚ
  signals : Signals
  verdict : String
  recommendations : List String
deriving DecidableEq, Repr

/-- Embedding of generateMockResults: the only AggregateResult value the
frontend pipeline ever produces, parameterised by the current document id
(the script reads it from the global currentDocumentId). -/
def generateMockResults (currentDocumentId : String) : Results :=
  { document_id := currentDocumentId
    confidence := 87
    uncertainty := 13
    processing_time := 14.5
    signals :=
      { ela :=
          { confidence := 85
            findings :=
              [ { region := some (100, 150, 200, 80), confidence := 90
                  description := "Date field shows copy-paste artifacts" }
              , { region := some (300, 250, 150, 50), confidence := 80
                  description := "Amount field has inconsistent compression" } ]
            summary := "Multiple regions show editing artifacts" }
        ocr :=
          { confidence := 75
            findings :=
              [ { region := some (100, 150, 200, 30), confidence := 70
                  description := "Font inconsistency in date field" }
              , { region := some (300, 250, 150, 30), confidence := 80
                  description := "Text alignment mismatch" } ]
            summary := "Text formatting inconsistencies detected" }
        metadata :=
          { confidence := 95
            findings :=
              [ { region := none, confidence := 95
                  description := "Creation date (2024-01-15) is after modification date (2023-12-20)" }
              , { region := none, confidence := 90
                  description := "Software metadata shows \"Photoshop\" for a PDF document" } ]
            summary := "Metadata anomalies suggest document editing" }
      }
    verdict := "SUSPICIOUS"
    recommendations :=
      [ "Verify date fields with issuing authority"
      , "Check amount fields against bank records"
      , "Request original document for comparison" ] }

/-! ## FileValidator -/

/-- Metadata of a candidate file, the only parts of the File object that
validateFile reads: declared MIME type, filename and size in bytes. -/
structure FileMeta where
  type : String
  name : String
  size : Nat
deriving DecidableEq, Repr

/-- The list of accepted declared MIME types of validateFile. -/
def validTypes : List String :=
  ["application/pdf", "image/png", "image/jpeg", "image/jpg"]

/-- Embedding of the regex test of validateFile: the case-insensitive match
of the filename against a pdf, png, jpg or jpeg extension anchored at the
end of the name. -/
def extMatches (name : String) : Bool :=
  let l := name.toLower
  l.endsWith ".pdf" || l.endsWith ".png" || l.endsWith ".jpg" || l.endsWith ".jpeg"

/-- Embedding of validateFile: accept when the declared type is in the
accepted list or the filename extension matches, and the size does not
exceed 16 MiB. -/
def validateFile (f : FileMeta) : Bool :=
  let maxSize : Nat := 16 * 1024 * 1024
  if !(validTypes.contains f.type) && !(extMatches f.name) then
    false
  else if f.size > maxSize then
    false
  else
    true

/-- MIME classes of the specification. -/
inductive MimeClass | PDF | PNG | JPEG
deriving DecidableEq, Repr

/-- Validation errors of the specification. -/
inductive ValidationError | UnsupportedType | TooLarge
deriving DecidableEq, Repr

/-- Document record of the specification, created on successful validation. -/
structure Document where
  displayName : String
  mimeClass : MimeClass
  sizeBytes : Nat
deriving DecidableEq, Repr

/-- Resolution of the MIME class from the declared type or, failing that,
from the filename extension, following the wording of the specification. -/
def mimeClassOf (f : FileMeta) : Option MimeClass :=
  if f.type = "application/pdf" then some .PDF
  else if f.type = "image/png" then some .PNG
  else if f.type = "image/jpeg" || f.type = "image/jpg" then some .JPEG
  else
    let l := f.name.toLower
    if l.endsWith ".pdf" then some .PDF
    else if l.endsWith ".png" then some .PNG
    else if l.endsWith ".jpg" || l.endsWith ".jpeg" then some .JPEG
    else none

/-- Specification-side validator, written from the wording of the spec for
comparison with the embedded validateFile: resolve a MIME class, check the
size bound, and report the matching ValidationError variant otherwise. -/
def validateSpec (f : FileMeta) : Except ValidationError Document :=
  match mimeClassOf f with
  | none => .error .UnsupportedType
  | some mc =>
      if f.size > 16777216 then .error .TooLarge
      else .ok { displayName := f.name, mimeClass := mc, sizeBytes := f.size }

/-! ## Confidence display tiers -/

/-- Embedding of updateConfidenceDisplay: the message and the CSS class the
script assigns to the confidence text, as a pure function of the overall
confidence value. -/
def updateConfidenceDisplay (confidence : Nat) : String × String :=
  if confidence ≥ 80 then
    ("HIGH CONFIDENCE - Document likely tampered", "text-danger")
  else if confidence ≥ 50 then
    ("MEDIUM CONFIDENCE - Document suspicious", "text-warning")
  else
    ("LOW CONFIDENCE - Document likely authentic", "text-success")

/-- Verdict tier table as worded by the specification: below 50 AUTHENTIC,
50 to 79 SUSPICIOUS, 80 and above TAMPERED. -/
def verdictOfConfidence (c : Nat) : String :=
  if c < 50 then "AUTHENTIC"
  else if c ≤ 79 then "SUSPICIOUS"
  else "TAMPERED"

/-! ## Heatmap regions -/

/-- Entry of the heatmapRegions array used for click handling: the bounding
box (x, y, width, height), the finding data, the owning signal and the
display color. The entries pushed by drawSampleRegions carry no color field,
so the color is optional. -/
structure HeatmapRegion where
  x : ℚ
  y : ℚ
  width : ℚ
  height : ℚ
  confidence : Nat
  description : String
  signal : String
  color : Option String
deriving DecidableEq, Repr

/-- Fill color the script attaches to heatmap entries built from ELA
findings. -/
def elaRegionColor : String := "rgba(220, 53, 69, 0.3)"

/-- Fill color the script attaches to heatmap entries built from OCR
findings. -/
def ocrRegionColor : String := "rgba(255, 193, 7, 0.3)"

/-- Conversion of one finding of a signal into a heatmap entry, keeping the
finding fields and attaching the signal name and its color, exactly as the
push inside updateHeatmap does; findings without a region produce no entry. -/
def regionOfFinding (signal : String) (color : String) (f : Finding) :
    Option HeatmapRegion :=
  match f.region with
  | none => none
  | some (x, y, w, h) =>
      some { x := x, y := y, width := w, height := h
             confidence := f.confidence, description := f.description
             signal := signal, color := some color }

/-- Embedding of the drawing color chosen by drawSampleRegions from a sample
region confidence: red at 80 and above, yellow from 60, green below. -/
def sampleRegionColor (confidence : Nat) : String :=
  if confidence ≥ 80 then "rgba(220, 53, 69, 0.5)"
  else if confidence ≥ 60 then "rgba(255, 193, 7, 0.5)"
  else "rgba(40, 167, 69, 0.5)"

/-- The three hard-coded sample regions drawSampleRegions pushes onto
heatmapRegions; the pushed objects carry no color field. -/
def sampleRegions : List HeatmapRegion :=
  [ { x := 100, y := 150, width := 200, height := 80, confidence := 90
      description := "Date field anomaly", signal := "ela", color := none }
  , { x := 300, y := 250, width := 150, height := 50, confidence := 80
      description := "Amount field issue", signal := "ocr", color := none }
  , { x := 200, y := 350, width := 100, height := 40, confidence := 70
      description := "Signature area", signal := "ela", color := none } ]

/-- Embedding of updateHeatmap restricted to its data effect: the script
resets heatmapRegions, pushes one entry per ELA finding with a region, then
one per OCR finding with a region, and finally calls drawSampleRegions,
which appends the three sample entries. Metadata findings are never read. -/
def updateHeatmapRegions (signals : Signals) : List HeatmapRegion :=
  signals.ela.findings.filterMap (regionOfFinding "ela" elaRegionColor)
    ++ signals.ocr.findings.filterMap (regionOfFinding "ocr" ocrRegionColor)
    ++ sampleRegions

/-! ## Hit testing -/

/-- Embedding of the containment test inside handleHeatmapClick: the point
is inside when both coordinates lie between the box edges, all four
comparisons being non-strict. -/
def regionContains (r : HeatmapRegion) (px py : ℚ) : Bool :=
  decide (r.x ≤ px) && decide (px ≤ r.x + r.width) &&
  decide (r.y ≤ py) && decide (py ≤ r.y + r.height)

/-- Embedding of handleHeatmapClick restricted to region lookup: scale the
display point by the canvas-to-display ratios and return the first stored
region containing the scaled point. -/
def hitTest (regions : List HeatmapRegion) (x y scaleX scaleY : ℚ) :
    Option HeatmapRegion :=
  let canvasX := x * scaleX
  let canvasY := y * scaleY
  regions.find? (fun r => regionContains r canvasX canvasY)

/-! ## Pipeline orchestration -/

/-- Body of a successful upload response, as read by processFile. -/
structure UploadData where
  document_id : String
  processing_path : String
  process_endpoint : String
deriving DecidableEq, Repr

/-- Outcome of the upload transport: a 2xx response carrying the parsed
JSON body, or a non-success HTTP status (the script then throws
Upload failed with the status). -/
inductive UploadOutcome
  | ok (data : UploadData)
  | httpError (status : Nat)
deriving DecidableEq, Repr

/-- Outcome of the later fetch of the process endpoint inside
processDocument: a parsed JSON body, or a network error. -/
inductive ProcessOutcome
  | ok
  | fetchError
deriving DecidableEq, Repr

/-- Embedding of processDocument restricted to its resolved value: both the
success branch and the catch branch of the inner fetch resolve the promise
with generateMockResults, so the synthetic result is produced regardless of
the process endpoint outcome. -/
def processDocument (outcome : ProcessOutcome) (currentDocumentId : String) :
    Results :=
  match outcome with
  | .ok => generateMockResults currentDocumentId
  | .fetchError => generateMockResults currentDocumentId

/-- Observable outcome of one processFile run: the file rejected by
validation (alert asking for a valid document), an error path (progress
reset to 0, processing hidden, alert with the error message), or results
handed to displayResults. -/
inductive PipelineOutcome
  | rejected
  | errorAlert (message : String)
  | results (r : Results)
deriving DecidableEq, Repr

/-- Discriminator of the results outcome, used to state that an outcome is
not a fallback result. -/
def PipelineOutcome.isResults : PipelineOutcome → Bool
  | .results _ => true
  | _ => false

/-- Embedding of processFile: validation gate, then the upload fetch; a
non-ok response throws Upload failed with the status, which the catch turns
into the error path; on success the document id is saved and processDocument
supplies the results. -/
def processFile (f : FileMeta) (upload : UploadOutcome)
    (proc : ProcessOutcome) : PipelineOutcome :=
  if !validateFile f then
    .rejected
  else
    match upload with
    | .httpError status => .errorAlert ("Upload failed: " ++ toString status)
    | .ok data => .results (processDocument proc data.document_id)

/-- Progress percentages pushed to updateProcessingStatus during one
processFile run, in emission order: showProcessing emits 10; a failed upload
emits 0 from the catch handler; a successful upload emits 25, then the
processDocument timers emit 33, 66, 80 and 90, and completion emits 100. -/
def progressTrace (f : FileMeta) (upload : UploadOutcome) : List Nat :=
  if !validateFile f then
    []
  else
    10 :: (match upload with
      | .httpError _ => [0]
      | .ok _ => [25, 33, 66, 80, 90, 100])

/-! ## Session state and stale responses -/

/-- Global client state read and written by the script: the current document
id and the currently displayed detection results. -/
structure ClientState where
  currentDocumentId : Option String
  detectionResults : Option Results
deriving DecidableEq, Repr

/-- Events of the session: a successful upload of a new document stores its
id in currentDocumentId (processFile), and an arriving analysis response
reaches displayResults, which stores it in detectionResults without
comparing any job id. -/
inductive SessionEvent
  | uploadAccepted (documentId : String)
  | responseArrived (r : Results)
deriving DecidableEq, Repr

/-- One step of the client state machine: uploadAccepted overwrites the
current document id; responseArrived applies displayResults, which
unconditionally overwrites detectionResults. -/
def sessionStep (s : ClientState) : SessionEvent → ClientState
  | .uploadAccepted documentId => { s with currentDocumentId := some documentId }
  | .responseArrived r => { s with detectionResults := some r }

/-- Run of the client state machine over a list of session events. -/
def sessionRun (s : ClientState) (events : List SessionEvent) : ClientState :=
  events.foldl sessionStep s

/-- The initial client state: both globals start as null. -/
def initialState : ClientState :=
  { currentDocumentId := none, detectionResults := none }

/-! ## Report serialization -/

/-- Embedding of the report template of generateForensicReport, written as
the concatenation of its lines; the template literal of the script starts
with a newline, indents every line with eight spaces (summaries with
eleven), joins the recommendation bullets with a newline plus eight spaces,
and ends with a newline plus four spaces. The timestamp argument stands for
the Date.toLocaleString() call. -/
def generateForensicReport (r : Results) (timestamp : String) : String :=
  "\n" ++
  "        DOCUMENT FORENSIC REPORT" ++ "\n" ++
  "        ========================" ++ "\n" ++
  "        " ++ "\n" ++
  "        Document ID: " ++ r.document_id ++ "\n" ++
  "        Analysis Time: " ++ timestamp ++ "\n" ++
  "        " ++ "\n" ++
  "        OVERALL ASSESSMENT" ++ "\n" ++
  "        ------------------" ++ "\n" ++
  "        Confidence: " ++ Nat.repr r.confidence ++ "%" ++ "\n" ++
  "        Uncertainty: " ++ Nat.repr r.uncertainty ++ "%" ++ "\n" ++
  "        Verdict: " ++ r.verdict ++ "\n" ++
  "        " ++ "\n" ++
  "        SIGNAL ANALYSIS" ++ "\n" ++
  "        ---------------" ++ "\n" ++
  "        " ++ "\n" ++
  "        1. ERROR LEVEL ANALYSIS (" ++ Nat.repr r.signals.ela.confidence ++ "%)" ++ "\n" ++
  "           " ++ r.signals.ela.summary ++ "\n" ++
  "           " ++ "\n" ++
  "        2. TEXT INCONSISTENCY ANALYSIS (" ++ Nat.repr r.signals.ocr.confidence ++ "%)" ++ "\n" ++
  "           " ++ r.signals.ocr.summary ++ "\n" ++
  "           " ++ "\n" ++
  "        3. METADATA FORENSICS (" ++ Nat.repr r.signals.metadata.confidence ++ "%)" ++ "\n" ++
  "           " ++ r.signals.metadata.summary ++ "\n" ++
  "        " ++ "\n" ++
  "        RECOMMENDATIONS" ++ "\n" ++
  "        ---------------" ++ "\n" ++
  "        " ++ String.intercalate "\n        " (r.recommendations.map (fun rec => "• " ++ rec)) ++ "\n" ++
  "        " ++ "\n" ++
  "        ---" ++ "\n" ++
  "        Generated by DocVerify - Explainable Document Forgery Detection" ++ "\n" ++
  "        HackTheWinter 2024 • ML-103" ++ "\n" ++
  "    "

/-- Trailing part of the report template after the verdict line, split out
so the line analysis of the round-trip proof can treat it as one block;
generateForensicReport equals its first twelve lines followed by this
tail. -/
def reportTail (r : Results) : String :=
  "        " ++ "\n" ++
  "        SIGNAL ANALYSIS" ++ "\n" ++
  "        ---------------" ++ "\n" ++
  "        " ++ "\n" ++
  "        1. ERROR LEVEL ANALYSIS (" ++ Nat.repr r.signals.ela.confidence ++ "%)" ++ "\n" ++
  "           " ++ r.signals.ela.summary ++ "\n" ++
  "           " ++ "\n" ++
  "        2. TEXT INCONSISTENCY ANALYSIS (" ++ Nat.repr r.signals.ocr.confidence ++ "%)" ++ "\n" ++
  "           " ++ r.signals.ocr.summary ++ "\n" ++
  "           " ++ "\n" ++
  "        3. METADATA FORENSICS (" ++ Nat.repr r.signals.metadata.confidence ++ "%)" ++ "\n" ++
  "           " ++ r.signals.metadata.summary ++ "\n" ++
  "        " ++ "\n" ++
  "        RECOMMENDATIONS" ++ "\n" ++
  "        ---------------" ++ "\n" ++
  "        " ++ String.intercalate "\n        " (r.recommendations.map (fun rec => "• " ++ rec)) ++ "\n" ++
  "        " ++ "\n" ++
  "        ---" ++ "\n" ++
  "        Generated by DocVerify - Explainable Document Forgery Detection" ++ "\n" ++
  "        HackTheWinter 2024 • ML-103" ++ "\n" ++
  "    "

/-! ## Report parsing

The repository ships no parser for the downloaded report, so one is
modelled from the specification for the round-trip property. -/

/-- Split of a character list at every newline, each fragment excluding the
newline itself; an empty input yields one empty line. -/
def splitLines : List Char → List (List Char)
  | [] => [[]]
  | c :: t =>
      if c = '\n' then [] :: splitLines t
      else
        match splitLines t with
        | [] => [[c]]
        | h :: r => (c :: h) :: r

/-- Test of whether the first list is an initial segment of the second,
written out recursively so its arithmetic stays elementary. -/
def startsWithChars : List Char → List Char → Bool
  | [], _ => true
  | _ :: _, [] => false
  | k :: ks, c :: cs => k = c && startsWithChars ks cs

/-- Search of a line list for the first line beginning with the key,
returning the remainder of that line after the key. -/
def findLineRest (key : List Char) : List (List Char) → Option (List Char)
  | [] => none
  | l :: ls =>
      if startsWithChars key l then some (l.drop key.length)
      else findLineRest key ls

/-- Decimal reading of a nonempty all-digit character list. -/
def parseNatValue (l : List Char) : Option Nat :=
  if l.isEmpty then none
  else if l.all (fun c => c.isDigit) then
    some (l.foldl (fun a c => a * 10 + (c.toNat - 48)) 0)
  else none

/-- Modelled from the spec: the re-parsing step of the round-trip property
of the report (the repository ships only the serializer). The report lines
carrying a value are located by their fixed label, so the generic field
reader returns the remainder of the first line beginning with the key. -/
def parseReportField (key : String) (report : String) : Option (List Char) :=
  findLineRest key.data (splitLines report.data)

/-- Modelled from the spec: recovery of a percentage field of the report,
reading the decimal digits of the first line beginning with the key up to
the percent sign. -/
def parseReportNat (key : String) (report : String) : Option Nat :=
  (parseReportField key report).bind fun rest =>
    parseNatValue (rest.takeWhile (fun c => c ≠ '%'))

/-- Modelled from the spec: recovery of the overall confidence of a
serialized report. -/
def parseReportConfidence (report : String) : Option Nat :=
  parseReportNat "        Confidence: " report

/-- Modelled from the spec: recovery of the uncertainty of a serialized
report. -/
def parseReportUncertainty (report : String) : Option Nat :=
  parseReportNat "        Uncertainty: " report

/-- Modelled from the spec: recovery of the verdict of a serialized
report. -/
def parseReportVerdict (report : String) : Option String :=
  (parseReportField "        Verdict: " report).map String.mk

/-- Decimal digit characters of a natural number, most significant first;
the reference rendering the decimal writer of the runtime agrees with. -/
def decChars (n : Nat) : List Char :=
  if _h : n < 10 then [Nat.digitChar n]
  else decChars (n / 10) ++ [Nat.digitChar (n % 10)]
decreasing_by exact Nat.div_lt_self (by omega) (by omega)

/-- Decimal value of a character list, as read by parseNatValue. -/
def charsVal (l : List Char) : Nat :=
  l.foldl (fun a c => a * 10 + (c.toNat - 48)) 0

/-! ## Helper lemmas: decimal digits -/

theorem digitChar_facts : ∀ d : Fin 10,
    (Nat.digitChar d.val).toNat - 48 = d.val ∧ (Nat.digitChar d.val).isDigit = true := by
  decide

theorem decChars_eq_of_lt {n : Nat} (h : n < 10) : decChars n = [Nat.digitChar n] := by
  rw [decChars]
  simp [h]

theorem decChars_eq_of_ge {n : Nat} (h : ¬ n < 10) :
    decChars n = decChars (n / 10) ++ [Nat.digitChar (n % 10)] := by
  rw [decChars]
  simp [h]

theorem toDigitsCore_eq_decChars :
    ∀ (fuel n : Nat) (ds : List Char), n < fuel →
      Nat.toDigitsCore 10 fuel n ds = decChars n ++ ds := by
  intro fuel
  induction fuel with
  | zero => intro n ds h; omega
  | succ fuel ih =>
    intro n ds h
    show (if n / 10 = 0 then Nat.digitChar (n % 10) :: ds
          else Nat.toDigitsCore 10 fuel (n / 10) (Nat.digitChar (n % 10) :: ds))
      = decChars n ++ ds
    by_cases hdiv : n / 10 = 0
    · have hn : n < 10 := by omega
      rw [if_pos hdiv, decChars_eq_of_lt hn, Nat.mod_eq_of_lt hn]
      simp
    · have hn : ¬ n < 10 := by
        intro hc
        exact hdiv (Nat.div_eq_of_lt hc)
      rw [if_neg hdiv, ih (n / 10) _ (by omega), decChars_eq_of_ge hn]
      simp

theorem repr_data (n : Nat) : (Nat.repr n).data = decChars n := by
  show (List.asString (Nat.toDigitsCore 10 (n + 1) n [])).data = decChars n
  rw [toDigitsCore_eq_decChars (n + 1) n [] (Nat.lt_succ_self n)]
  simp [List.asString]

theorem charsVal_append_digit (l : List Char) (c : Char) :
    charsVal (l ++ [c]) = charsVal l * 10 + (c.toNat - 48) := by
  simp [charsVal, List.foldl_append]

theorem charsVal_decChars (n : Nat) : charsVal (decChars n) = n := by
  induction n using Nat.strong_induction_on with
  | _ n ih =>
    by_cases h : n < 10
    · rw [decChars_eq_of_lt h]
      have := (digitChar_facts ⟨n, h⟩).1
      simp [charsVal, this]
    · rw [decChars_eq_of_ge h, charsVal_append_digit]
      have hmod : (Nat.digitChar (n % 10)).toNat - 48 = n % 10 :=
        (digitChar_facts ⟨n % 10, Nat.mod_lt _ (by omega)⟩).1
      have hdiv : n / 10 < n := Nat.div_lt_self (by omega) (by omega)
      rw [ih (n / 10) hdiv, hmod]
      omega

theorem decChars_all_digit (n : Nat) : ∀ c ∈ decChars n, c.isDigit = true := by
  induction n using Nat.strong_induction_on with
  | _ n ih =>
    by_cases h : n < 10
    · rw [decChars_eq_of_lt h]
      intro c hc
      rw [List.mem_singleton] at hc
      subst hc
      exact (digitChar_facts ⟨n, h⟩).2
    · rw [decChars_eq_of_ge h]
      intro c hc
      rcases List.mem_append.mp hc with hl | hr
      · exact ih (n / 10) (Nat.div_lt_self (by omega) (by omega)) c hl
      · rw [List.mem_singleton] at hr
        subst hr
        exact (digitChar_facts ⟨n % 10, Nat.mod_lt _ (by omega)⟩).2

theorem decChars_ne_nil (n : Nat) : decChars n ≠ [] := by
  by_cases h : n < 10
  · rw [decChars_eq_of_lt h]; simp
  · rw [decChars_eq_of_ge h]; simp

theorem newline_not_mem_decChars (n : Nat) : '\n' ∉ decChars n := by
  intro h
  have := decChars_all_digit n '\n' h
  simp [Char.isDigit] at this

theorem parseNatValue_decChars (n : Nat) : parseNatValue (decChars n) = some n := by
  have hne : (decChars n).isEmpty = false := by
    cases hd : decChars n with
    | nil => exact absurd hd (decChars_ne_nil n)
    | cons c t => simp [List.isEmpty]
  have hall : (decChars n).all (fun c => c.isDigit) = true := by
    rw [List.all_eq_true]
    intro c hc
    exact decChars_all_digit n c hc
  show parseNatValue (decChars n) = some n
  rw [parseNatValue, hne, hall]
  show some (charsVal (decChars n)) = some n
  rw [charsVal_decChars]

/-! ## Helper lemmas: line splitting and key search -/

theorem splitLines_ne_nil (l : List Char) : splitLines l ≠ [] := by
  cases l with
  | nil => simp [splitLines]
  | cons c t =>
    rw [splitLines]
    by_cases h : c = '\n'
    · simp [h]
    · simp only [h, if_false]
      cases splitLines t <;> simp

theorem splitLines_newline (r : List Char) :
    splitLines ('\n' :: r) = [] :: splitLines r := by
  rw [splitLines]
  simp

theorem splitLines_append_left (a r : List Char) (ha : '\n' ∉ a) :
    splitLines (a ++ r) = (a ++ (splitLines r).headI) :: (splitLines r).tail := by
  induction a with
  | nil =>
    simp only [List.nil_append]
    cases hs : splitLines r with
    | nil => exact absurd hs (splitLines_ne_nil r)
    | cons h t => simp
  | cons c a iha =>
    have hc : c ≠ '\n' := by
      intro hc
      exact ha (hc ▸ List.mem_cons_self c a)
    have ha' : '\n' ∉ a := fun hm => ha (List.mem_cons_of_mem c hm)
    show splitLines (c :: (a ++ r)) = _
    rw [splitLines]
    simp only [hc, if_false]
    rw [iha ha']
    simp

theorem splitLines_line (a r : List Char) (ha : '\n' ∉ a) :
    splitLines (a ++ '\n' :: r) = a :: splitLines r := by
  rw [splitLines_append_left a _ ha, splitLines_newline]
  simp

theorem startsWithChars_same (k x : List Char) :
    startsWithChars k (k ++ x) = true := by
  induction k with
  | nil => simp [startsWithChars]
  | cons c k ih => simp [startsWithChars, ih]

theorem startsWithChars_append_of_not_comparable (k a x : List Char)
    (h1 : startsWithChars k a = false) (h2 : startsWithChars a k = false) :
    startsWithChars k (a ++ x) = false := by
  induction k generalizing a with
  | nil => simp [startsWithChars] at h1
  | cons c ks ih =>
    cases a with
    | nil => simp [startsWithChars] at h2
    | cons b as =>
      show startsWithChars (c :: ks) (b :: (as ++ x)) = false
      rw [startsWithChars]
      rw [startsWithChars] at h1 h2
      by_cases hcb : c = b
      · subst hcb
        simp only [decide_True, Bool.true_and] at h1 ⊢
        simp only [decide_True, Bool.true_and] at h2
        exact ih as h1 h2
      · simp [hcb]

theorem takeWhile_append_stop {p : Char → Bool} (a : List Char) (x : Char)
    (y : List Char) (ha : ∀ c ∈ a, p c = true) (hx : p x = false) :
    (a ++ x :: y).takeWhile p = a := by
  induction a with
  | nil => simp [List.takeWhile, hx]
  | cons c t ih =>
    have hc : p c = true := ha c (List.mem_cons_self c t)
    have ht : ∀ c ∈ t, p c = true := fun c hm => ha c (List.mem_cons_of_mem _ hm)
    simp [List.takeWhile, hc, ih ht]

theorem splitLines_cons_of_ne (c : Char) (r : List Char) (h : ¬ c = '\n') :
    splitLines (c :: r) = (c :: (splitLines r).headI) :: (splitLines r).tail := by
  rw [splitLines]
  simp only [h, if_false]
  cases hs : splitLines r with
  | nil => exact absurd hs (splitLines_ne_nil r)
  | cons a t => simp

theorem findLineRest_skip (key l : List Char) (ls : List (List Char))
    (h : startsWithChars key l = false) :
    findLineRest key (l :: ls) = findLineRest key ls := by
  simp [findLineRest, h]

theorem findLineRest_hit (key x : List Char) (ls : List (List Char)) :
    findLineRest key ((key ++ x) :: ls) = some x := by
  simp [findLineRest, startsWithChars_same, List.drop_left]

theorem decChars_ne_percent (n : Nat) :
    ∀ c ∈ decChars n, (decide ¬(c = '%')) = true := by
  intro c hc
  have hd := decChars_all_digit n c hc
  simp only [decide_eq_true_eq]
  intro heq
  subst heq
  simp [Char.isDigit] at hd

theorem splitLines_report_head (idd tsd cd ud vd tail : List Char)
    (hid : '\n' ∉ idd) (hts : '\n' ∉ tsd) (hc : '\n' ∉ cd) (hu : '\n' ∉ ud)
    (hv : '\n' ∉ vd) :
    splitLines
      ('\n' :: ("        DOCUMENT FORENSIC REPORT".data ++
       '\n' :: ("        ========================".data ++
       '\n' :: ("        ".data ++
       '\n' :: ("        Document ID: ".data ++ (idd ++
       '\n' :: ("        Analysis Time: ".data ++ (tsd ++
       '\n' :: ("        ".data ++
       '\n' :: ("        OVERALL ASSESSMENT".data ++
       '\n' :: ("        ------------------".data ++
       '\n' :: ("        Confidence: ".data ++ (cd ++
       '%' :: '\n' :: ("        Uncertainty: ".data ++ (ud ++
       '%' :: '\n' :: ("        Verdict: ".data ++ (vd ++
       '\n' :: tail)))))))))))))))))
      = [] ::
        "        DOCUMENT FORENSIC REPORT".data ::
        "        ========================".data ::
        "        ".data ::
        ("        Document ID: ".data ++ idd) ::
        ("        Analysis Time: ".data ++ tsd) ::
        "        ".data ::
        "        OVERALL ASSESSMENT".data ::
        "        ------------------".data ::
        ("        Confidence: ".data ++ (cd ++ ['%'])) ::
        ("        Uncertainty: ".data ++ (ud ++ ['%'])) ::
        ("        Verdict: ".data ++ vd) ::
        splitLines tail := by
  rw [splitLines_newline,
      splitLines_line _ _ (by decide),
      splitLines_line _ _ (by decide),
      splitLines_line _ _ (by decide)]
  rw [splitLines_append_left _ _ (by decide), splitLines_line _ _ hid]
  simp only [List.headI_cons, List.tail_cons]
  rw [splitLines_append_left _ _ (by decide), splitLines_line _ _ hts]
  simp only [List.headI_cons, List.tail_cons]
  rw [splitLines_line _ _ (by decide),
      splitLines_line _ _ (by decide),
      splitLines_line _ _ (by decide)]
  rw [splitLines_append_left _ _ (by decide), splitLines_append_left _ _ hc,
      splitLines_cons_of_ne '%' _ (by decide), splitLines_newline]
  simp only [List.headI_cons, List.tail_cons]
  rw [splitLines_append_left _ _ (by decide), splitLines_append_left _ _ hu,
      splitLines_cons_of_ne '%' _ (by decide), splitLines_newline]
  simp only [List.headI_cons, List.tail_cons]
  rw [splitLines_append_left _ _ (by decide), splitLines_line _ _ hv]
  simp only [List.headI_cons, List.tail_cons]

set_option maxRecDepth 8000 in
set_option maxHeartbeats 1600000 in
theorem reportData_eq (r : Results) (ts : String) :
    (generateForensicReport r ts).data =
      '\n' :: ("        DOCUMENT FORENSIC REPORT".data ++
       '\n' :: ("        ========================".data ++
       '\n' :: ("        ".data ++
       '\n' :: ("        Document ID: ".data ++ (r.document_id.data ++
       '\n' :: ("        Analysis Time: ".data ++ (ts.data ++
       '\n' :: ("        ".data ++
       '\n' :: ("        OVERALL ASSESSMENT".data ++
       '\n' :: ("        ------------------".data ++
       '\n' :: ("        Confidence: ".data ++ (decChars r.confidence ++
       '%' :: '\n' :: ("        Uncertainty: ".data ++ (decChars r.uncertainty ++
       '%' :: '\n' :: ("        Verdict: ".data ++ (r.verdict.data ++
       '\n' :: (reportTail r).data)))))))))))))))) := by
  simp only [generateForensicReport, reportTail, String.data_append, repr_data,
    List.append_assoc]
  simp only [List.singleton_append]

/-- Claim C9: serializing an AggregateResult to the textual report and then
re-parsing that report recovers the same overall confidence, uncertainty and
verdict values, provided the document id, the timestamp and the verdict
carry no embedded newline. The parser side is modelled from the spec, the
serializer is the embedded generateForensicReport. -/
theorem c9_report_roundtrip (r : Results) (ts : String)
    (hid : '\n' ∉ r.document_id.data) (hts : '\n' ∉ ts.data)
    (hv : '\n' ∉ r.verdict.data) :
    parseReportConfidence (generateForensicReport r ts) = some r.confidence ∧
    parseReportUncertainty (generateForensicReport r ts) = some r.uncertainty ∧
    parseReportVerdict (generateForensicReport r ts) = some r.verdict := by
  have hsplit :
      splitLines (generateForensicReport r ts).data =
        [] ::
        "        DOCUMENT FORENSIC REPORT".data ::
        "        ========================".data ::
        "        ".data ::
        ("        Document ID: ".data ++ r.document_id.data) ::
        ("        Analysis Time: ".data ++ ts.data) ::
        "        ".data ::
        "        OVERALL ASSESSMENT".data ::
        "        ------------------".data ::
        ("        Confidence: ".data ++ (decChars r.confidence ++ ['%'])) ::
        ("        Uncertainty: ".data ++ (decChars r.uncertainty ++ ['%'])) ::
        ("        Verdict: ".data ++ r.verdict.data) ::
        splitLines (reportTail r).data := by
    rw [reportData_eq]
    exact splitLines_report_head _ _ _ _ _ _ hid hts
      (newline_not_mem_decChars _) (newline_not_mem_decChars _) hv
  refine ⟨?_, ?_, ?_⟩
  · unfold parseReportConfidence parseReportNat parseReportField
    rw [hsplit]
    rw [findLineRest_skip _ _ _ (by decide), findLineRest_skip _ _ _ (by decide),
        findLineRest_skip _ _ _ (by decide), findLineRest_skip _ _ _ (by decide)]
    rw [findLineRest_skip _ _ _
        (startsWithChars_append_of_not_comparable _ _ _ (by decide) (by decide))]
    rw [findLineRest_skip _ _ _
        (startsWithChars_append_of_not_comparable _ _ _ (by decide) (by decide))]
    rw [findLineRest_skip _ _ _ (by decide), findLineRest_skip _ _ _ (by decide),
        findLineRest_skip _ _ _ (by decide)]
    rw [findLineRest_hit]
    show parseNatValue ((decChars r.confidence ++ ['%']).takeWhile _) = _
    rw [takeWhile_append_stop _ '%' _ (decChars_ne_percent _) (by decide)]
    exact parseNatValue_decChars _
  · unfold parseReportUncertainty parseReportNat parseReportField
    rw [hsplit]
    rw [findLineRest_skip _ _ _ (by decide), findLineRest_skip _ _ _ (by decide),
        findLineRest_skip _ _ _ (by decide), findLineRest_skip _ _ _ (by decide)]
    rw [findLineRest_skip _ _ _
        (startsWithChars_append_of_not_comparable _ _ _ (by decide) (by decide))]
    rw [findLineRest_skip _ _ _
        (startsWithChars_append_of_not_comparable _ _ _ (by decide) (by decide))]
    rw [findLineRest_skip _ _ _ (by decide), findLineRest_skip _ _ _ (by decide),
        findLineRest_skip _ _ _ (by decide)]
    rw [findLineRest_skip _ _ _
        (startsWithChars_append_of_not_comparable _ _ _ (by decide) (by decide))]
    rw [findLineRest_hit]
    show parseNatValue ((decChars r.uncertainty ++ ['%']).takeWhile _) = _
    rw [takeWhile_append_stop _ '%' _ (decChars_ne_percent _) (by decide)]
    exact parseNatValue_decChars _
  · unfold parseReportVerdict parseReportField
    rw [hsplit]
    rw [findLineRest_skip _ _ _ (by decide), findLineRest_skip _ _ _ (by decide),
        findLineRest_skip _ _ _ (by decide), findLineRest_skip _ _ _ (by decide)]
    rw [findLineRest_skip _ _ _
        (startsWithChars_append_of_not_comparable _ _ _ (by decide) (by decide))]
    rw [findLineRest_skip _ _ _
        (startsWithChars_append_of_not_comparable _ _ _ (by decide) (by decide))]
    rw [findLineRest_skip _ _ _ (by decide), findLineRest_skip _ _ _ (by decide),
        findLineRest_skip _ _ _ (by decide)]
    rw [findLineRest_skip _ _ _
        (startsWithChars_append_of_not_comparable _ _ _ (by decide) (by decide))]
    rw [findLineRest_skip _ _ _
        (startsWithChars_append_of_not_comparable _ _ _ (by decide) (by decide))]
    rw [findLineRest_hit]
    show some (String.mk r.verdict.data) = some r.verdict
    rfl

/-- Witness for C9: the round-trip property evaluated at the synthetic
result of the pipeline and a concrete timestamp. -/
theorem c9_witness :
    parseReportConfidence
        (generateForensicReport (generateMockResults "doc-1") "2024-01-15 10:00:00")
      = some (generateMockResults "doc-1").confidence ∧
    parseReportUncertainty
        (generateForensicReport (generateMockResults "doc-1") "2024-01-15 10:00:00")
      = some (generateMockResults "doc-1").uncertainty ∧
    parseReportVerdict
        (generateForensicReport (generateMockResults "doc-1") "2024-01-15 10:00:00")
      = some (generateMockResults "doc-1").verdict :=
  c9_report_roundtrip (generateMockResults "doc-1") "2024-01-15 10:00:00"
    (by decide) (by decide) (by decide)

/-! ## FileValidator lemmas -/

theorem mimeClassOf_eq_none_iff (f : FileMeta) :
    mimeClassOf f = none ↔ (f.type ∉ validTypes ∧ extMatches f.name = false) := by
  unfold mimeClassOf extMatches validTypes
  by_cases h1 : f.type = "application/pdf" <;>
  by_cases h2 : f.type = "image/png" <;>
  by_cases h3 : f.type = "image/jpeg" <;>
  by_cases h4 : f.type = "image/jpg" <;>
  by_cases e1 : f.name.toLower.endsWith ".pdf" = true <;>
  by_cases e2 : f.name.toLower.endsWith ".png" = true <;>
  by_cases e3 : f.name.toLower.endsWith ".jpg" = true <;>
  by_cases e4 : f.name.toLower.endsWith ".jpeg" = true <;>
  simp_all [List.mem_cons, List.not_mem_nil]



theorem mimeClassOf_ne_none_parts (f : FileMeta) (h : mimeClassOf f ≠ none) :
    f.type ∈ validTypes ∨ extMatches f.name = true := by
  by_cases hm : f.type ∈ validTypes
  · exact Or.inl hm
  · by_cases he : extMatches f.name = true
    · exact Or.inr he
    · exact absurd ((mimeClassOf_eq_none_iff f).mpr ⟨hm, Bool.eq_false_iff.mpr he⟩) h



theorem validateFile_eq (f : FileMeta) :
    validateFile f =
      ((validTypes.contains f.type || extMatches f.name) && decide (f.size ≤ 16777216)) := by
  have hsize : (if f.size > 16 * 1024 * 1024 then false else true)
      = decide (f.size ≤ 16777216) := by
    by_cases hs : f.size ≤ 16777216
    · rw [if_neg (show ¬ (f.size > 16 * 1024 * 1024) by omega), decide_eq_true hs]
    · rw [if_pos (show f.size > 16 * 1024 * 1024 by omega), decide_eq_false hs]
  show (if !(validTypes.contains f.type) && !(extMatches f.name) then false
        else if f.size > 16 * 1024 * 1024 then false else true) = _
  rw [hsize]
  rcases Bool.eq_false_or_eq_true (validTypes.contains f.type) with hct | hct <;>
    rcases Bool.eq_false_or_eq_true (extMatches f.name) with hext | hext <;>
    rw [hct, hext] <;> simp


set_option linter.unnecessarySeqFocus false in
/-- Claim C5: validateFile accepts a file exactly when the declared MIME
type is in the accepted list or the filename extension matches one of pdf,
png, jpg, jpeg, and the size is at most 16777216 bytes; the spec-side
validator built from the same inputs returns a Document exactly on
acceptance, UnsupportedType exactly when neither the declared type nor the
extension matches, and TooLarge exactly when the type or extension matches
but the size exceeds the limit. Both validators are pure functions of the
file metadata. -/
theorem c5_validateFile (f : FileMeta) :
    (validateFile f = true ↔
      ((f.type ∈ validTypes ∨ extMatches f.name = true) ∧ f.size ≤ 16777216)) ∧
    ((∃ d, validateSpec f = Except.ok d) ↔ validateFile f = true) ∧
    (validateSpec f = Except.error ValidationError.UnsupportedType ↔
      (f.type ∉ validTypes ∧ extMatches f.name = false)) ∧
    (validateSpec f = Except.error ValidationError.TooLarge ↔
      ((f.type ∈ validTypes ∨ extMatches f.name = true) ∧ 16777216 < f.size)) := by
  have hc : (validTypes.contains f.type = true) ↔ f.type ∈ validTypes := by
    simp [List.contains, List.elem_iff]
  have hvf : validateFile f = true ↔
      ((f.type ∈ validTypes ∨ extMatches f.name = true) ∧ f.size ≤ 16777216) := by
    rw [validateFile_eq]
    rw [Bool.and_eq_true, Bool.or_eq_true, decide_eq_true_eq, hc]
  refine ⟨hvf, ?_, ?_, ?_⟩
  · cases hmc : mimeClassOf f with
    | none =>
      have hni := (mimeClassOf_eq_none_iff f).mp hmc
      simp [validateSpec, hmc, hvf, hni.1, hni.2]
    | some mc =>
      have hor := mimeClassOf_ne_none_parts f (by simp [hmc])
      by_cases hs : 16777216 < f.size <;>
        simp [validateSpec, hmc, hs, hvf, hor] <;> omega
  · cases hmc : mimeClassOf f with
    | none =>
      have hni := (mimeClassOf_eq_none_iff f).mp hmc
      simp [validateSpec, hmc, hni.1, hni.2]
    | some mc =>
      have hne : ¬ (f.type ∉ validTypes ∧ extMatches f.name = false) := by
        intro hcon
        rw [(mimeClassOf_eq_none_iff f).mpr hcon] at hmc
        cases hmc
      by_cases hs : 16777216 < f.size <;> simp [validateSpec, hmc, hs, hne]
  · cases hmc : mimeClassOf f with
    | none =>
      have hni := (mimeClassOf_eq_none_iff f).mp hmc
      simp [validateSpec, hmc, hni.1, hni.2]
    | some mc =>
      have hor := mimeClassOf_ne_none_parts f (by simp [hmc])
      by_cases hs : 16777216 < f.size <;> simp [validateSpec, hmc, hs, hor]

/-- Witness for C5: a concrete valid PDF upload is accepted. -/
theorem c5_witness :
    validateFile { type := "application/pdf", name := "doc.pdf", size := 1000 } = true :=
  (c5_validateFile _).1.mpr ⟨Or.inl (by decide), by decide⟩

/-! ## Claims about tiers and hit testing -/

/-- Claim C2, counterexample: the AggregateResult the pipeline produces has
overallConfidence 87 but verdict SUSPICIOUS, while the tier table maps 87
(which is at least 80) to TAMPERED, so the verdict is not the tier function
of the overall confidence. -/
theorem c2_counterexample :
    (generateMockResults "doc-1").confidence = 87 ∧
    (generateMockResults "doc-1").verdict = "SUSPICIOUS" ∧
    verdictOfConfidence (generateMockResults "doc-1").confidence = "TAMPERED" ∧
    (generateMockResults "doc-1").verdict
      ≠ verdictOfConfidence (generateMockResults "doc-1").confidence :=
  ⟨rfl, rfl, rfl, by decide⟩

/-- Claim C2 (amended): the tier table of the spec is implemented by the
confidence display, whose tier class is exactly the table applied to the
overall confidence (below 50 the authentic tier, 50 to 79 the suspicious
tier, 80 and above the tampered tier, boundaries included); the verdict
field of the produced AggregateResult is the constant SUSPICIOUS, not a
function of the confidence. -/
theorem c2_display_tier (c : Nat) (docId : String) :
    ((updateConfidenceDisplay c).2 = "text-danger" ↔ 80 ≤ c) ∧
    ((updateConfidenceDisplay c).2 = "text-warning" ↔ 50 ≤ c ∧ c ≤ 79) ∧
    ((updateConfidenceDisplay c).2 = "text-success" ↔ c < 50) ∧
    (generateMockResults docId).verdict = "SUSPICIOUS" := by
  refine ⟨?_, ?_, ?_, rfl⟩ <;>
    · unfold updateConfidenceDisplay
      split_ifs with h1 h2 <;> simp <;> omega

/-- Characterization of List.find? as the first element satisfying the
predicate, phrased through an append decomposition. -/
theorem find?_eq_some_first {α : Type} (p : α → Bool) (l : List α) (r : α) :
    l.find? p = some r ↔
      ∃ l₁ l₂, l = l₁ ++ r :: l₂ ∧ p r = true ∧ ∀ q ∈ l₁, p q = false := by
  induction l with
  | nil => simp
  | cons c t ih =>
    rcases Bool.eq_false_or_eq_true (p c) with hc | hc
    · rw [List.find?_cons_of_pos _ hc]
      constructor
      · intro h
        injection h with h
        subst h
        exact ⟨[], t, rfl, hc, by simp⟩
      · rintro ⟨l₁, l₂, hl, hr, hq⟩
        cases l₁ with
        | nil =>
          simp only [List.nil_append, List.cons.injEq] at hl
          rw [hl.1]
        | cons a l₁ =>
          exfalso
          simp only [List.cons_append, List.cons.injEq] at hl
          have ha := hq a (List.mem_cons_self a l₁)
          rw [← hl.1, hc] at ha
          cases ha
    · rw [List.find?_cons_of_neg _ (by simp [hc]), ih]
      constructor
      · rintro ⟨l₁, l₂, hl, hr, hq⟩
        refine ⟨c :: l₁, l₂, by simp [hl], hr, ?_⟩
        intro q hqmem
        rcases List.mem_cons.mp hqmem with h | h
        · subst h; exact hc
        · exact hq q h
      · rintro ⟨l₁, l₂, hl, hr, hq⟩
        cases l₁ with
        | nil =>
          exfalso
          simp only [List.nil_append, List.cons.injEq] at hl
          rw [← hl.1] at hr
          rw [hc] at hr
          cases hr
        | cons a l₁ =>
          simp only [List.cons_append, List.cons.injEq] at hl
          exact ⟨l₁, l₂, hl.2, hr, fun q hq2 => hq q (hl.1 ▸ List.mem_cons_of_mem a hq2)⟩

/-- Claim C3: hit testing scales the display point by the supplied factors
and returns the first stored region, in insertion order, whose bounding box
contains the scaled point; it returns none exactly when no stored region
contains the point. -/
theorem c3_hitTest_first_match (regions : List HeatmapRegion) (x y sx sy : ℚ) :
    (hitTest regions x y sx sy = none ↔
      ∀ r ∈ regions, regionContains r (x * sx) (y * sy) = false) ∧
    (∀ r, hitTest regions x y sx sy = some r ↔
      ∃ l₁ l₂, regions = l₁ ++ r :: l₂ ∧
        regionContains r (x * sx) (y * sy) = true ∧
        ∀ q ∈ l₁, regionContains q (x * sx) (y * sy) = false) := by
  constructor
  · rw [hitTest, List.find?_eq_none]
    constructor
    · intro h r hr
      have := h r hr
      rcases Bool.eq_false_or_eq_true (regionContains r (x * sx) (y * sy)) with ht | hf
      · exact absurd ht this
      · exact hf
    · intro h r hr
      rw [h r hr]
      simp
  · intro r
    exact find?_eq_some_first _ regions r

/-- Witness for C3: the example of the spec, the point (150, 180) at unit
scale hits the first sample region. -/
theorem c3_witness :
    hitTest sampleRegions 150 180 1 1
      = some { x := 100, y := 150, width := 200, height := 80, confidence := 90,
               description := "Date field anomaly", signal := "ela", color := none } :=
  ((c3_hitTest_first_match sampleRegions 150 180 1 1).2 _).mpr
    ⟨[], _, rfl, by norm_num [regionContains], by simp⟩

/-- Claim C10: containment in handleHeatmapClick is inclusive on all four
edges: a transformed point is inside a stored box exactly when it lies
between the edges in both coordinates, bounds included, so all four corner
points of a box with nonnegative extent are inside it. -/
theorem c10_containment_inclusive (r : HeatmapRegion)
    (hw : 0 ≤ r.width) (hh : 0 ≤ r.height) :
    (∀ px py, regionContains r px py = true ↔
      (r.x ≤ px ∧ px ≤ r.x + r.width ∧ r.y ≤ py ∧ py ≤ r.y + r.height)) ∧
    regionContains r r.x r.y = true ∧
    regionContains r (r.x + r.width) r.y = true ∧
    regionContains r r.x (r.y + r.height) = true ∧
    regionContains r (r.x + r.width) (r.y + r.height) = true := by
  have hiff : ∀ px py, regionContains r px py = true ↔
      (r.x ≤ px ∧ px ≤ r.x + r.width ∧ r.y ≤ py ∧ py ≤ r.y + r.height) := by
    intro px py
    simp [regionContains, and_assoc]
  refine ⟨hiff, ?_, ?_, ?_, ?_⟩ <;> rw [hiff]
  · exact ⟨le_refl _, by linarith, le_refl _, by linarith⟩
  · exact ⟨by linarith, le_refl _, le_refl _, by linarith⟩
  · exact ⟨le_refl _, by linarith, by linarith, le_refl _⟩
  · exact ⟨by linarith, le_refl _, by linarith, le_refl _⟩

/-- Witness for C10: the first sample region contains its own top-left
corner. -/
theorem c10_witness :
    regionContains
      { x := 100, y := 150, width := 200, height := 80, confidence := 90,
        description := "Date field anomaly", signal := "ela", color := none }
      100 150 = true :=
  (c10_containment_inclusive _ (by norm_num) (by norm_num)).2.1

/-! ## Claims about heatmap rebuilding and colors -/

theorem length_filterMap_regionOfFinding (signal color : String) (l : List Finding) :
    (l.filterMap (regionOfFinding signal color)).length
      = l.countP (fun f => f.region.isSome) := by
  induction l with
  | nil => rfl
  | cons f t ih =>
    cases hreg : f.region with
    | none =>
      rw [List.filterMap_cons, List.countP_cons]
      simp [regionOfFinding, hreg, ih]
    | some q =>
      obtain ⟨qx, qy, qw, qh⟩ := q
      rw [List.filterMap_cons, List.countP_cons]
      simp [regionOfFinding, hreg, ih]

/-- Claim C4, counterexample: on the signals of the produced
AggregateResult, the rebuilt heatmap region list has seven entries while
only four findings across the three signals carry a region (the two
metadata findings carry none), because metadata findings are never read and
three fixed sample regions are appended. -/
theorem c4_counterexample :
    (updateHeatmapRegions (generateMockResults "doc-1").signals).length = 7 ∧
    ((generateMockResults "doc-1").signals.ela.findings
        ++ (generateMockResults "doc-1").signals.ocr.findings
        ++ (generateMockResults "doc-1").signals.metadata.findings).countP
      (fun f => f.region.isSome) = 4 ∧
    (7 : Nat) ≠ 4 :=
  ⟨rfl, rfl, by decide⟩

/-- Claim C4 (amended): rebuilding the heatmap region set yields one entry
per ELA finding with a non-absent region and one per OCR finding with a
non-absent region, never reads the metadata findings, and always appends
the three fixed sample regions of drawSampleRegions. -/
theorem c4_rebuild_composition (signals : Signals) :
    ((updateHeatmapRegions signals).length
      = signals.ela.findings.countP (fun f => f.region.isSome)
        + signals.ocr.findings.countP (fun f => f.region.isSome) + 3) ∧
    (∀ m : SignalResult,
      updateHeatmapRegions { signals with metadata := m }
        = updateHeatmapRegions signals) ∧
    (updateHeatmapRegions signals
      = signals.ela.findings.filterMap (regionOfFinding "ela" elaRegionColor)
        ++ signals.ocr.findings.filterMap (regionOfFinding "ocr" ocrRegionColor)
        ++ sampleRegions) := by
  refine ⟨?_, fun m => rfl, rfl⟩
  show (signals.ela.findings.filterMap (regionOfFinding "ela" elaRegionColor)
      ++ signals.ocr.findings.filterMap (regionOfFinding "ocr" ocrRegionColor)
      ++ sampleRegions).length = _
  rw [List.length_append, List.length_append,
      length_filterMap_regionOfFinding, length_filterMap_regionOfFinding]
  rfl

/-- Claim C8, counterexample: two heatmap entries built from findings with
the same confidence 80 (one ELA, one OCR) carry different colors, so the
display color tier is not a function of the finding confidence; the ELA and
OCR entries are colored by signal instead. -/
theorem c8_counterexample :
    ((updateHeatmapRegions (generateMockResults "doc-1").signals)[1]?).map
        (fun e => (e.confidence, e.color)) = some (80, some elaRegionColor) ∧
    ((updateHeatmapRegions (generateMockResults "doc-1").signals)[3]?).map
        (fun e => (e.confidence, e.color)) = some (80, some ocrRegionColor) ∧
    elaRegionColor ≠ ocrRegionColor :=
  ⟨rfl, rfl, by decide⟩

/-- Claim C8 (amended): entries built from ELA findings are always colored
with the fixed ELA color and entries built from OCR findings with the fixed
OCR color, regardless of confidence; only the drawing color of the three
hard-coded sample regions of drawSampleRegions follows the confidence tier
table (80 and above red, 60 to 79 yellow, below 60 green). -/
theorem c8_colors (signals : Signals) :
    (∀ e ∈ signals.ela.findings.filterMap (regionOfFinding "ela" elaRegionColor),
        e.color = some elaRegionColor) ∧
    (∀ e ∈ signals.ocr.findings.filterMap (regionOfFinding "ocr" ocrRegionColor),
        e.color = some ocrRegionColor) ∧
    (∀ c : Nat,
      (sampleRegionColor c = "rgba(220, 53, 69, 0.5)" ↔ 80 ≤ c) ∧
      (sampleRegionColor c = "rgba(255, 193, 7, 0.5)" ↔ 60 ≤ c ∧ c ≤ 79) ∧
      (sampleRegionColor c = "rgba(40, 167, 69, 0.5)" ↔ c < 60)) := by
  refine ⟨?_, ?_, ?_⟩
  · intro e he
    rcases List.mem_filterMap.mp he with ⟨f, _, hf⟩
    cases hreg : f.region with
    | none => rw [regionOfFinding, hreg] at hf; cases hf
    | some q =>
      obtain ⟨qx, qy, qw, qh⟩ := q
      rw [regionOfFinding, hreg] at hf
      injection hf with hf
      rw [← hf]
  · intro e he
    rcases List.mem_filterMap.mp he with ⟨f, _, hf⟩
    cases hreg : f.region with
    | none => rw [regionOfFinding, hreg] at hf; cases hf
    | some q =>
      obtain ⟨qx, qy, qw, qh⟩ := q
      rw [regionOfFinding, hreg] at hf
      injection hf with hf
      rw [← hf]
  · intro c
    refine ⟨?_, ?_, ?_⟩ <;>
      · unfold sampleRegionColor
        split_ifs with h1 h2 <;> simp <;> omega

/-- Witness for C8: the first ELA finding of the produced result yields an
entry carrying the ELA color, and the sample color of confidence 90 is the
red of the high tier. -/
theorem c8_witness :
    ({ x := 100, y := 150, width := 200, height := 80, confidence := 90,
       description := "Date field shows copy-paste artifacts", signal := "ela",
       color := some elaRegionColor } : HeatmapRegion).color = some elaRegionColor ∧
    sampleRegionColor 90 = "rgba(220, 53, 69, 0.5)" :=
  ⟨(c8_colors (generateMockResults "doc-1").signals).1 _ (by decide),
   ((c8_colors (generateMockResults "doc-1").signals).2.2 90).1.mpr (by decide)⟩

/-! ## Claims about the pipeline and the session -/

/-- Claim C1, counterexample: on a valid file whose upload transport
returns status 500, processFile takes the error path (progress reset and an
alert with the message) and produces no AggregateResult at all, synthetic
or otherwise; the Results record of this script carries no source tag. -/
theorem c1_counterexample :
    processFile { type := "application/pdf", name := "doc.pdf", size := 1000 }
        (UploadOutcome.httpError 500) ProcessOutcome.ok
      = PipelineOutcome.errorAlert "Upload failed: 500" ∧
    (processFile { type := "application/pdf", name := "doc.pdf", size := 1000 }
        (UploadOutcome.httpError 500) ProcessOutcome.ok).isResults = false :=
  ⟨rfl, rfl⟩

/-- Claim C1 (amended): on a valid file, an upload failure surfaces an
error alert named after the HTTP status and yields no result, while a
successful upload always yields the locally synthesized result of
generateMockResults, whether or not the later process-endpoint fetch
succeeds; that synthetic result carries no source tag. -/
theorem c1_upload_failure_no_fallback (f : FileMeta) (proc : ProcessOutcome)
    (h : validateFile f = true) :
    (∀ st : Nat, processFile f (.httpError st) proc
        = .errorAlert ("Upload failed: " ++ toString st)) ∧
    (∀ d : UploadData, processFile f (.ok d) proc
        = .results (generateMockResults d.document_id)) := by
  constructor
  · intro st
    simp [processFile, h]
  · intro d
    cases proc <;> simp [processFile, h, processDocument]

/-- Witness for C1: the amended behavior evaluated on a concrete valid PDF
and a failed upload with status 404. -/
theorem c1_witness :
    processFile { type := "application/pdf", name := "doc.pdf", size := 1000 }
        (UploadOutcome.httpError 404) ProcessOutcome.fetchError
      = PipelineOutcome.errorAlert ("Upload failed: " ++ toString 404) :=
  (c1_upload_failure_no_fallback _ _ (by decide)).1 404

/-- Claim C6, counterexample: the failed lifecycle emits the progress
sequence 10 then 0, which is not non-decreasing, because the error handler
resets the progress bar to zero. -/
theorem c6_counterexample :
    progressTrace { type := "application/pdf", name := "doc.pdf", size := 1000 }
        (UploadOutcome.httpError 500) = [10, 0] ∧
    ¬ List.Chain' (· ≤ ·) ([10, 0] : List Nat) :=
  ⟨rfl, by simp⟩

/-- Claim C6 (amended): on a valid file, a successful lifecycle emits the
progress sequence 10, 25, 33, 66, 80, 90, 100, which is non-decreasing and
reaches 100 only at its final, completion step; a failed lifecycle emits 10
followed by 0, so its progress decreases. -/
theorem c6_progress (f : FileMeta) (h : validateFile f = true) :
    (∀ d : UploadData, progressTrace f (.ok d) = [10, 25, 33, 66, 80, 90, 100]) ∧
    List.Chain' (· ≤ ·) ([10, 25, 33, 66, 80, 90, 100] : List Nat) ∧
    (∀ i : Nat, ([10, 25, 33, 66, 80, 90, 100] : List Nat)[i]? = some 100 → i = 6) ∧
    (∀ st : Nat, progressTrace f (.httpError st) = [10, 0]) := by
  refine ⟨?_, by simp, ?_, ?_⟩
  · intro d
    simp [progressTrace, h]
  · intro i hi
    have hlen : i < 7 := by
      by_contra hge
      rw [List.getElem?_eq_none
        (by simp only [List.length_cons, List.length_nil]; omega)] at hi
      cases hi
    interval_cases i <;> simp_all
  · intro st
    simp [progressTrace, h]

/-- Witness for C6: the successful trace evaluated on a concrete valid file
and upload response. -/
theorem c6_witness :
    progressTrace { type := "application/pdf", name := "doc.pdf", size := 1000 }
        (UploadOutcome.ok
          { document_id := "doc-1", processing_path := "p", process_endpoint := "e" })
      = [10, 25, 33, 66, 80, 90, 100] :=
  (c6_progress _ (by decide)).1 _

/-- Claim C7, counterexample: after a second document is submitted, the
late response of the first job is still applied: the final state shows
doc-b as the current document id but displays the results of doc-a, so a
callback whose job id does not match the current one was not discarded. -/
theorem c7_counterexample :
    (sessionRun initialState
        [SessionEvent.uploadAccepted "doc-a", SessionEvent.uploadAccepted "doc-b",
         SessionEvent.responseArrived (generateMockResults "doc-a")]).currentDocumentId
      = some "doc-b" ∧
    (sessionRun initialState
        [SessionEvent.uploadAccepted "doc-a", SessionEvent.uploadAccepted "doc-b",
         SessionEvent.responseArrived (generateMockResults "doc-a")]).detectionResults
      = some (generateMockResults "doc-a") ∧
    (generateMockResults "doc-a").document_id ≠ "doc-b" :=
  ⟨rfl, rfl, by decide⟩

/-- Claim C7 (amended): the client stores a single current document id, but
displayResults applies every arriving response unconditionally, so the
later-arriving response of a superseded job overwrites the displayed
results even though its document id differs from the current one. -/
theorem c7_stale_response_applied (ida idb : String) (ra : Results)
    (hne : ida ≠ idb) (hra : ra.document_id = ida) :
    (sessionRun initialState
        [SessionEvent.uploadAccepted ida, SessionEvent.uploadAccepted idb,
         SessionEvent.responseArrived ra]).currentDocumentId = some idb ∧
    (sessionRun initialState
        [SessionEvent.uploadAccepted ida, SessionEvent.uploadAccepted idb,
         SessionEvent.responseArrived ra]).detectionResults = some ra ∧
    ra.document_id ≠ idb := by
  refine ⟨rfl, rfl, ?_⟩
  rw [hra]
  exact hne

/-- Witness for C7: the stale-response overwrite evaluated on two concrete
document ids and the synthetic result of the first. -/
theorem c7_witness :
    (sessionRun initialState
        [SessionEvent.uploadAccepted "doc-a", SessionEvent.uploadAccepted "doc-b",
         SessionEvent.responseArrived (generateMockResults "doc-a")]).detectionResults
      = some (generateMockResults "doc-a") :=
  (c7_stale_response_applied "doc-a" "doc-b" (generateMockResults "doc-a")
    (by decide) rfl).2.1

end DocVerify
